import Mathlib

/-!
Shallow embedding of `1_setup_environment.py` (Chatterbox TTS environment
setup checker, step 1).

The script is a linear driver over seven independent check functions.  Each
check queries ambient system state and returns a Python boolean; two checks
(`check_pip`, `check_gpu`) contain `try/except` blocks that catch one
specific exception class each, so exceptions of other classes escape them.
We model the ambient state explicitly (interpreter version, prefix
attributes, subprocess behaviour, disk query, network outcome, torch
availability) and model Python exceptions with `Except`.
-/

namespace SetupEnv

/-- Python exception classes relevant to the script's `try/except` blocks. -/
inductive PyExc where
  /-- The class `subprocess.CalledProcessError`, raised by
  `subprocess.run(..., check=True)` when the child exits with a nonzero
  status. -/
  | calledProcessError
  /-- An `OSError` (e.g. `FileNotFoundError`) raised when the child process
  cannot be launched at all. -/
  | osError
  /-- The class `ImportError`, raised when a module is not installed. -/
  | importError
  /-- A runtime error raised by a library call (e.g. a CUDA query failing). -/
  | runtimeError
  /-- Any other exception class. -/
  | otherError
  deriving DecidableEq

/-- The interpreter version triple `sys.version_info`. -/
structure PyVersion where
  major : Nat
  minor : Nat
  micro : Nat
  deriving DecidableEq

/-- The interpreter's prefix attributes inspected by `check_venv`:
whether `sys.real_prefix` exists (legacy virtualenv marker), whether
`sys.base_prefix` exists, and the values of `sys.base_prefix` and
`sys.prefix`. -/
structure VenvState where
  hasRealPfx : Bool
  hasBasePfx : Bool
  basePfx : String
  activePfx : String
  deriving DecidableEq

/-- Behaviour of the spawned `pip --version` subprocess: either the child
runs and exits with a status code, or it cannot be launched at all. -/
inductive PipRunBehavior where
  | exit (code : Nat)
  | launchError
  deriving DecidableEq

/-- Behaviour of the OS free-space query (Windows `GetDiskFreeSpaceExW`
or POSIX `os.statvfs`): either it reports a number of free bytes, or it
raises. -/
inductive DiskQuery where
  | ok (freeBytes : Nat)
  | raiseErr
  deriving DecidableEq

/-- Behaviour of the `urllib.request.urlopen('https://pypi.org', timeout=5)`
call: either it completes, or it raises some exception (timeout, DNS
failure, connection refused, ...). -/
inductive NetOutcome where
  | success
  | raiseErr (e : PyExc)
  deriving DecidableEq

/-- State of the optional `torch` library: not installed (`import torch`
raises `ImportError`), installed but its CUDA query raises, or installed
with a CUDA-availability flag and a device count. -/
inductive TorchState where
  | notInstalled
  | queryRaises (e : PyExc)
  | installed (cudaAvailable : Bool) (deviceCount : Nat)
  deriving DecidableEq

/-- The full ambient system state a run of the script observes. -/
structure SysState where
  version : PyVersion
  pipRun : PipRunBehavior
  venv : VenvState
  disk : DiskQuery
  net : NetOutcome
  torch : TorchState
  deriving DecidableEq

/-- Embeds `check_python_version`: true iff
`version.major == 3 and version.minor >= 10`. -/
def check_python_version (v : PyVersion) : Bool :=
  v.major == 3 && decide (10 ≤ v.minor)

/-- Embeds `check_system_info`: prints platform information and always
returns `True`. -/
def check_system_info : Bool :=
  true

/-- Embeds `subprocess.run([sys.executable, "-m", "pip", "--version"],
..., check=True)`: with `check=True` a nonzero child exit status raises
`CalledProcessError`; a launch failure raises an `OSError`. -/
def subprocessRunPip (b : PipRunBehavior) : Except PyExc Unit :=
  match b with
  | .exit code => if code = 0 then Except.ok () else Except.error PyExc.calledProcessError
  | .launchError => Except.error PyExc.osError

/-- Embeds `check_pip`: runs the pip subprocess inside
`try: ... return True / except subprocess.CalledProcessError: return False`.
Only `CalledProcessError` is caught; any other exception propagates. -/
def check_pip (b : PipRunBehavior) : Except PyExc Bool :=
  match subprocessRunPip b with
  | Except.ok _ => Except.ok true
  | Except.error PyExc.calledProcessError => Except.ok false
  | Except.error e => Except.error e

/-- Embeds `check_venv`, which computes
`in_venv = hasattr(sys, "real_prefix") or (hasattr(sys, "base_prefix") and
sys.base_prefix != sys.prefix)` and returns `in_venv`. -/
def check_venv (vs : VenvState) : Bool :=
  vs.hasRealPfx || (vs.hasBasePfx && vs.basePfx != vs.activePfx)

/-- Embeds `check_disk_space`: converts the queried free bytes to GB and compares
against 10 GB; both the sufficient branch and the low-space warning branch
return `True`, and the `except Exception` handler also returns `True`. -/
def check_disk_space (q : DiskQuery) : Bool :=
  match q with
  | .ok freeBytes => if 10 * 1024 ^ 3 ≤ freeBytes then true else true
  | .raiseErr => true

/-- Embeds `check_internet`: `try: urlopen(...); return True /
except Exception: return False`.  Every exception class is caught. -/
def check_internet (n : NetOutcome) : Bool :=
  match n with
  | .success => true
  | .raiseErr _ => false

/-- Body of `check_gpu`'s `try` block: `import torch` raises `ImportError`
when torch is absent; the CUDA query may raise; otherwise both the
devices-found branch and the no-device branch return `True`. -/
def gpuTryBody (t : TorchState) : Except PyExc Bool :=
  match t with
  | .notInstalled => Except.error PyExc.importError
  | .queryRaises e => Except.error e
  | .installed _ _ => Except.ok true

/-- Embeds `check_gpu`: the `try` block with `except ImportError: return True`.
Only `ImportError` is caught; any other exception propagates. -/
def check_gpu (t : TorchState) : Except PyExc Bool :=
  match gpuTryBody t with
  | Except.error PyExc.importError => Except.ok true
  | r => r

/-- Right-pads a string with spaces to width `w` (Python's `f"{s:8}"`). -/
def padRight (s : String) (w : Nat) : String :=
  s ++ String.mk (List.replicate (w - s.length) ' ')

/-- Status tag printed in the summary: `"✓ PASS"` or `"✗ FAIL"`. -/
def statusTag (r : Bool) : String :=
  if r then "✓ PASS" else "✗ FAIL"

/-- One summary row: `f"{status:8} - {check_name}"`. -/
def summaryRow (name : String) (r : Bool) : String :=
  padRight (statusTag r) 8 ++ " - " ++ name

/-- Closing message of the success branch (printed via `print_success`). -/
def successClosing : String :=
  "✓ All checks passed! You're ready for the next step."

/-- Closing message of the failure branch (printed via `print_warning`). -/
def warnClosing : String :=
  "⚠ Some checks failed. Please fix the issues above."

/-- The observable result of a completed run of `main`: the collected
`(name, outcome)` pairs, the summary rows in print order, the pass count,
the total, the `"<passed>/<total> checks passed"` line, the closing
message, and the returned exit code. -/
structure MainResult where
  checks : List (String × Bool)
  summaryRows : List String
  passed : Nat
  total : Nat
  passedLine : String
  closing : String
  exitCode : Nat
  deriving DecidableEq

/-- The summary/exit part of `main`, from the collected `checks` list:
`passed = sum(1 for _, result in checks if result)`, `total = len(checks)`,
one row per pair in order, and exit code 0 iff `passed == total`. -/
def summarize (checks : List (String × Bool)) : MainResult :=
  let passed := (checks.filter (fun p => p.2)).length
  let total := checks.length
  { checks := checks
    summaryRows := checks.map (fun p => summaryRow p.1 p.2)
    passed := passed
    total := total
    passedLine := toString passed ++ ("/" ++ (toString total ++ " checks passed"))
    closing := if passed = total then successClosing else warnClosing
    exitCode := if passed = total then 0 else 1 }

/-- Embeds `main`: invokes the seven checks in the fixed source order,
appending each `(name, outcome)` pair to `checks`, then prints the summary
and returns the exit code.  An exception escaping `check_pip` or
`check_gpu` propagates out of `main` (there is no `try/except` in `main`),
modelled by the `Except.error` branches. -/
def main (s : SysState) : Except PyExc MainResult :=
  let c1 := check_python_version s.version
  let c2 := check_system_info
  match check_pip s.pipRun with
  | Except.error e => Except.error e
  | Except.ok c3 =>
    let c4 := check_venv s.venv
    let c5 := check_disk_space s.disk
    let c6 := check_internet s.net
    match check_gpu s.torch with
    | Except.error e => Except.error e
    | Except.ok c7 =>
      Except.ok (summarize
        [("Python Version", c1), ("System Info", c2), ("pip", c3),
         ("Virtual Environment", c4), ("Disk Space", c5),
         ("Internet", c6), ("GPU (Optional)", c7)])

/-- Holds (as `true`) when an embedded check result is an escaping
exception. -/
def escapes (r : Except PyExc Bool) : Bool :=
  match r with
  | Except.error _ => true
  | Except.ok _ => false

/-- A concrete all-passing ambient state, used as witness input. -/
def sampleState : SysState :=
  { version := { major := 3, minor := 11, micro := 5 }
    pipRun := PipRunBehavior.exit 0
    venv := { hasRealPfx := false, hasBasePfx := true
              basePfx := "/usr", activePfx := "/home/u/venv" }
    disk := DiskQuery.ok (64 * 1024 ^ 3)
    net := NetOutcome.success
    torch := TorchState.notInstalled }

/-- The `MainResult` produced by `main sampleState`. -/
def sampleRes : MainResult :=
  summarize
    [("Python Version", true), ("System Info", true), ("pip", true),
     ("Virtual Environment", true), ("Disk Space", true),
     ("Internet", true), ("GPU (Optional)", true)]

/-- The exit code computed by `summarize` is 0 exactly when every collected
outcome is `true` (`passed == total`). -/
theorem summarize_exitCode_zero (checks : List (String × Bool)) :
    (summarize checks).exitCode = 0 ↔ checks.all (fun p => p.2) = true := by
  simp only [summarize, List.all_eq_true]
  by_cases hc : (checks.filter (fun p => p.2)).length = checks.length
  · simp only [if_pos hc, true_iff]
    intro a ha
    exact List.filter_length_eq_length.mp hc a ha
  · simp only [if_neg hc]
    constructor
    · intro h
      exact absurd h Nat.one_ne_zero
    · intro h
      exact absurd (List.filter_length_eq_length.mpr h) hc

/-- The exit code computed by `summarize` is always 0 or 1. -/
theorem summarize_exitCode_cases (checks : List (String × Bool)) :
    (summarize checks).exitCode = 0 ∨ (summarize checks).exitCode = 1 := by
  simp only [summarize]
  by_cases hc : (checks.filter (fun p => p.2)).length = checks.length
  · exact Or.inl (by simp [if_pos hc])
  · exact Or.inr (by simp [if_neg hc])

/-- The closing message chosen by `summarize` matches its exit code branch. -/
theorem summarize_closing (checks : List (String × Bool)) :
    ((summarize checks).exitCode = 0 → (summarize checks).closing = successClosing) ∧
    ((summarize checks).exitCode = 1 → (summarize checks).closing = warnClosing) := by
  simp only [summarize]
  by_cases hc : (checks.filter (fun p => p.2)).length = checks.length
  · refine ⟨fun _ => by simp [if_pos hc], fun h => ?_⟩
    simp [if_pos hc] at h
  · refine ⟨fun h => ?_, fun _ => by simp [if_neg hc]⟩
    simp [if_neg hc] at h

/-- When `main` returns normally, its result is `summarize` applied to the
seven collected pairs, and both fallible checks returned `Except.ok`. -/
theorem main_ok_elim {s : SysState} {r : MainResult} (h : main s = Except.ok r) :
    ∃ c3 c7, check_pip s.pipRun = Except.ok c3 ∧ check_gpu s.torch = Except.ok c7 ∧
      r = summarize
        [("Python Version", check_python_version s.version),
         ("System Info", check_system_info), ("pip", c3),
         ("Virtual Environment", check_venv s.venv),
         ("Disk Space", check_disk_space s.disk),
         ("Internet", check_internet s.net), ("GPU (Optional)", c7)] := by
  unfold main at h
  cases hp : check_pip s.pipRun with
  | error e =>
    rw [hp] at h
    exact absurd h (by simp)
  | ok c3 =>
    rw [hp] at h
    cases hg : check_gpu s.torch with
    | error e =>
      rw [hg] at h
      exact absurd h (by simp)
    | ok c7 =>
      rw [hg] at h
      exact ⟨c3, c7, rfl, rfl, (Except.ok.inj h).symm⟩

/-- C1: for every run of the driver `main` that returns, the returned
process exit status is 0 if every recorded check outcome in the collected
sequence is true and 1 otherwise, and each case comes with its own closing
message, the two messages being distinct. -/
theorem main_exit_status (s : SysState) (r : MainResult)
    (h : main s = Except.ok r) :
    (r.exitCode = 0 ↔ r.checks.all (fun p => p.2) = true) ∧
    (r.exitCode = 0 → r.closing = successClosing) ∧
    (r.exitCode ≠ 0 → r.exitCode = 1 ∧ r.closing = warnClosing) ∧
    successClosing ≠ warnClosing := by
  obtain ⟨c3, c7, -, -, rfl⟩ := main_ok_elim h
  refine ⟨summarize_exitCode_zero _, (summarize_closing _).1, fun hne => ?_, by decide⟩
  rcases summarize_exitCode_cases
      [("Python Version", check_python_version s.version),
       ("System Info", check_system_info), ("pip", c3),
       ("Virtual Environment", check_venv s.venv),
       ("Disk Space", check_disk_space s.disk),
       ("Internet", check_internet s.net), ("GPU (Optional)", c7)] with h0 | h1
  · exact absurd h0 hne
  · exact ⟨h1, (summarize_closing _).2 h1⟩

/-- Witness for C1 at a concrete all-passing state. -/
theorem main_exit_status_inst :
    (sampleRes.exitCode = 0 ↔ sampleRes.checks.all (fun p => p.2) = true) ∧
    (sampleRes.exitCode = 0 → sampleRes.closing = successClosing) ∧
    (sampleRes.exitCode ≠ 0 → sampleRes.exitCode = 1 ∧ sampleRes.closing = warnClosing) ∧
    successClosing ≠ warnClosing :=
  main_exit_status sampleState sampleRes (by rfl)

/-- C8: for every interpreter version triple, `check_python_version`
returns true iff the major version equals 3 and the minor version is at
least 10 (in particular it returns false whenever minor is below 10 or
major differs from 3). -/
theorem check_python_version_spec (v : PyVersion) :
    check_python_version v = true ↔ (v.major = 3 ∧ 10 ≤ v.minor) := by
  simp [check_python_version]

/-- C2 counterexample: two concrete environment behaviours in which a check
function lets an exception escape its own boundary: a pip subprocess that
cannot be launched escapes `check_pip` (only `CalledProcessError` is
caught), and an accelerator library that raises a non-`ImportError` on
query escapes `check_gpu` (only `ImportError` is caught). -/
theorem check_escape_cx :
    escapes (check_pip PipRunBehavior.launchError) = true ∧
    escapes (check_gpu (TorchState.queryRaises PyExc.runtimeError)) = true := by
  decide

/-- C2 (amended): each check function returns a boolean for every
anticipated environment behaviour — `check_pip` whenever the subprocess
runs to completion with any exit status, `check_gpu` whenever the library
is absent, raises `ImportError`, or answers the query — and the five
remaining checks are total boolean functions of the queried state; however
a subprocess launch failure escapes `check_pip` and a non-`ImportError`
raised by the accelerator query escapes `check_gpu`. -/
theorem checks_return_bool (code : Nat) (v : PyVersion) (vs : VenvState)
    (d : DiskQuery) (n : NetOutcome) (t : TorchState)
    (ht : ∀ e, t = TorchState.queryRaises e → e = PyExc.importError) :
    (∃ b, check_pip (PipRunBehavior.exit code) = Except.ok b) ∧
    (∃ b, check_gpu t = Except.ok b) ∧
    check_system_info = true ∧
    check_disk_space d = true ∧
    (check_python_version v = true ∨ check_python_version v = false) ∧
    (check_venv vs = true ∨ check_venv vs = false) ∧
    (check_internet n = true ∨ check_internet n = false) := by
  refine ⟨?_, ?_, rfl, ?_, Bool.eq_false_or_eq_true _, ?_, ?_⟩
  · by_cases hcode : code = 0
    · exact ⟨true, by simp [check_pip, subprocessRunPip, hcode]⟩
    · exact ⟨false, by simp [check_pip, subprocessRunPip, hcode]⟩
  · cases t with
    | notInstalled => exact ⟨true, rfl⟩
    | queryRaises e =>
      have he := ht e rfl
      subst he
      exact ⟨true, rfl⟩
    | installed a k => exact ⟨true, rfl⟩
  · cases d with
    | ok freeBytes => simp [check_disk_space]
    | raiseErr => rfl
  · exact Bool.eq_false_or_eq_true _
  · exact Bool.eq_false_or_eq_true _

/-- Witness for C2 (amended) at concrete behaviours. -/
theorem checks_return_bool_inst :
    (∃ b, check_pip (PipRunBehavior.exit 0) = Except.ok b) ∧
    (∃ b, check_gpu TorchState.notInstalled = Except.ok b) ∧
    check_system_info = true ∧
    check_disk_space DiskQuery.raiseErr = true ∧
    (check_python_version ⟨3, 11, 5⟩ = true ∨ check_python_version ⟨3, 11, 5⟩ = false) ∧
    (check_venv ⟨false, true, "/usr", "/usr"⟩ = true ∨
      check_venv ⟨false, true, "/usr", "/usr"⟩ = false) ∧
    (check_internet NetOutcome.success = true ∨
      check_internet NetOutcome.success = false) :=
  checks_return_bool 0 ⟨3, 11, 5⟩ ⟨false, true, "/usr", "/usr"⟩
    DiskQuery.raiseErr NetOutcome.success TorchState.notInstalled
    (fun _ h => nomatch h)

/-- C3 counterexample: when the pip subprocess cannot be launched at all,
`check_pip` does not return the value false — the exception propagates
(as an `OSError`) instead. -/
theorem check_pip_launch_cx :
    check_pip PipRunBehavior.launchError = Except.error PyExc.osError ∧
    check_pip PipRunBehavior.launchError ≠ Except.ok false :=
  ⟨rfl, by simp [check_pip, subprocessRunPip]⟩

/-- C3 (amended): `check_pip` returns true iff the spawned pip version
subprocess exits with status 0, and returns false on any nonzero exit
status (the raised `CalledProcessError` is caught); a failure to launch
the subprocess, however, propagates as an exception rather than yielding
false. -/
theorem check_pip_spec (code : Nat) :
    (check_pip (PipRunBehavior.exit code) = Except.ok true ↔ code = 0) ∧
    (check_pip (PipRunBehavior.exit code) = Except.ok false ↔ code ≠ 0) ∧
    check_pip PipRunBehavior.launchError = Except.error PyExc.osError := by
  by_cases hcode : code = 0 <;>
    simp [check_pip, subprocessRunPip, hcode]

/-- Witness for C3 (amended) at a concrete nonzero exit status. -/
theorem check_pip_spec_inst :
    (check_pip (PipRunBehavior.exit 2) = Except.ok true ↔ (2 : Nat) = 0) ∧
    (check_pip (PipRunBehavior.exit 2) = Except.ok false ↔ (2 : Nat) ≠ 0) ∧
    check_pip PipRunBehavior.launchError = Except.error PyExc.osError :=
  check_pip_spec 2

/-- A prefix state with the legacy `real_prefix` marker present and the two
compared prefix values equal. -/
def venvRealEq : VenvState :=
  { hasRealPfx := true, hasBasePfx := true, basePfx := "/usr", activePfx := "/usr" }

/-- C4 counterexample: when the legacy isolation marker attribute is
present, `check_venv` returns true even though the two compared prefix
values are equal, so it is not the case that equal prefixes always yield
false. -/
theorem check_venv_cx :
    venvRealEq.basePfx = venvRealEq.activePfx ∧ check_venv venvRealEq = true := by
  decide

/-- C4 (amended): `check_venv` returns true iff the legacy `real_prefix`
marker attribute is present, or the `base_prefix` attribute is present and
its value differs from the active prefix; in particular, when the marker is
absent and the `base_prefix` attribute is present, it returns true iff the
two compared prefix values differ (and false when they are equal). -/
theorem check_venv_spec (vs : VenvState) :
    (check_venv vs = true ↔
      vs.hasRealPfx = true ∨ (vs.hasBasePfx = true ∧ vs.basePfx ≠ vs.activePfx)) ∧
    (vs.hasRealPfx = false → vs.hasBasePfx = true →
      (check_venv vs = true ↔ vs.basePfx ≠ vs.activePfx)) := by
  constructor
  · simp [check_venv]
  · intro h1 h2
    simp [check_venv, h1, h2]

/-- Witness for C4 (amended): a state without the marker, with differing
prefixes, is classified as isolated. -/
theorem check_venv_spec_inst :
    check_venv { hasRealPfx := false, hasBasePfx := true,
                 basePfx := "/usr", activePfx := "/home/u/venv" } = true :=
  ((check_venv_spec _).2 rfl rfl).mpr (by decide)

/-- C5: `check_internet` returns true iff the HTTP GET completes without
raising; every raised error returns false regardless of the error subtype,
and the overall run still completes (with exit code 1 for the otherwise
all-passing state) rather than aborting. -/
theorem check_internet_spec (e : PyExc) :
    check_internet NetOutcome.success = true ∧
    check_internet (NetOutcome.raiseErr e) = false ∧
    (∀ n, check_internet n = true ↔ n = NetOutcome.success) ∧
    ∃ r, main { sampleState with net := NetOutcome.raiseErr e } = Except.ok r ∧
      r.exitCode = 1 := by
  refine ⟨rfl, rfl, fun n => ?_, ?_⟩
  · cases n <;> simp [check_internet]
  · exact ⟨summarize
      [("Python Version", true), ("System Info", true), ("pip", true),
       ("Virtual Environment", true), ("Disk Space", true),
       ("Internet", false), ("GPU (Optional)", true)], rfl, rfl⟩

/-- Witness for C5 at a concrete timeout-style error. -/
theorem check_internet_spec_inst :
    check_internet NetOutcome.success = true ∧
    check_internet (NetOutcome.raiseErr PyExc.otherError) = false ∧
    (∀ n, check_internet n = true ↔ n = NetOutcome.success) ∧
    ∃ r, main { sampleState with net := NetOutcome.raiseErr PyExc.otherError } =
        Except.ok r ∧ r.exitCode = 1 :=
  check_internet_spec PyExc.otherError

/-- C6: `check_disk_space` returns true for every possible behaviour of the
free-space query — the sufficient branch, the low-space warning branch and
the measurement-error branch alike (fail-open, advisory only). -/
theorem check_disk_space_spec (q : DiskQuery) : check_disk_space q = true := by
  cases q with
  | ok freeBytes => simp [check_disk_space]
  | raiseErr => rfl

/-- Witness for C6 at a concrete low-space measurement. -/
theorem check_disk_space_spec_inst :
    check_disk_space (DiskQuery.ok (2 * 1024 ^ 3)) = true :=
  check_disk_space_spec (DiskQuery.ok (2 * 1024 ^ 3))

/-- Any boolean `check_gpu` actually returns is true. -/
theorem check_gpu_ok_true (t : TorchState) (b : Bool)
    (h : check_gpu t = Except.ok b) : b = true := by
  cases t with
  | notInstalled => exact (Except.ok.inj h).symm
  | queryRaises e =>
    cases e <;> first
      | exact (Except.ok.inj h).symm
      | exact absurd h (by simp [check_gpu, gpuTryBody])
  | installed a k => exact (Except.ok.inj h).symm

/-- C7: `check_gpu` returns true when the detection library is not
installed, and when it is installed with any CUDA-availability flag and any
device count (one or more devices, or zero); moreover, in every run of
`main` that returns, the recorded GPU pair is `("GPU (Optional)", true)`,
so its outcome never gates the summary. -/
theorem check_gpu_spec :
    check_gpu TorchState.notInstalled = Except.ok true ∧
    (∀ (avail : Bool) (count : Nat),
      check_gpu (TorchState.installed avail count) = Except.ok true) ∧
    (∀ (s : SysState) (r : MainResult), main s = Except.ok r →
      r.checks.getLast? = some ("GPU (Optional)", true)) := by
  refine ⟨rfl, fun _ _ => rfl, fun s r h => ?_⟩
  obtain ⟨c3, c7, -, hg, rfl⟩ := main_ok_elim h
  rw [check_gpu_ok_true s.torch c7 hg]
  rfl

/-- Witness for C7 at a concrete all-passing state. -/
theorem check_gpu_spec_inst :
    sampleRes.checks.getLast? = some ("GPU (Optional)", true) :=
  check_gpu_spec.2.2 sampleState sampleRes (by rfl)

/-- C9: a run of `main` is a deterministic function of the queried ambient
system state — two runs on identical states yield identical collected
outcomes and identical exit codes (or the identical escaping exception). -/
theorem main_deterministic (s₁ s₂ : SysState) (hs : s₁ = s₂)
    (r₁ r₂ : Except PyExc MainResult)
    (h₁ : main s₁ = r₁) (h₂ : main s₂ = r₂) : r₁ = r₂ := by
  subst hs
  rw [← h₁, ← h₂]

/-- Witness for C9: two runs on the concrete sample state agree. -/
theorem main_deterministic_inst : main sampleState = main sampleState :=
  main_deterministic sampleState sampleState rfl
    (main sampleState) (main sampleState) rfl rfl

/-- C10 counterexample: a run in which the pip subprocess cannot be
launched is not a run with no early exit and seven recorded pairs — the
exception escaping `check_pip` (the third check) propagates out of `main`,
so checks 4.4 through 4.7 are never invoked, no `(name, outcome)` sequence
is collected, and no summary is printed. -/
theorem main_early_exit_cx :
    main { sampleState with pipRun := PipRunBehavior.launchError } =
      Except.error PyExc.osError := rfl

/-- C10 (amended): in every run in which no exception escapes a check —
that is, whenever `check_pip` and `check_gpu` return booleans — the driver
invokes all seven checks in the fixed order 4.1 through 4.7 with no early
exit, records exactly seven `(name, outcome)` pairs in invocation order,
and the summary prints one status row per pair in that same order with a
denominator of 7 in the pass-count line; a run in which a check raises
aborts before the summary instead. -/
theorem main_seven_checks (s : SysState) (c3 c7 : Bool)
    (hp : check_pip s.pipRun = Except.ok c3)
    (hg : check_gpu s.torch = Except.ok c7) :
    ∃ r, main s = Except.ok r ∧
      r.checks.map Prod.fst =
        ["Python Version", "System Info", "pip", "Virtual Environment",
         "Disk Space", "Internet", "GPU (Optional)"] ∧
      r.checks.length = 7 ∧
      r.total = 7 ∧
      r.summaryRows = r.checks.map (fun p => summaryRow p.1 p.2) ∧
      r.passedLine = toString r.passed ++ "/7 checks passed" := by
  refine ⟨summarize
      [("Python Version", check_python_version s.version),
       ("System Info", check_system_info), ("pip", c3),
       ("Virtual Environment", check_venv s.venv),
       ("Disk Space", check_disk_space s.disk),
       ("Internet", check_internet s.net), ("GPU (Optional)", c7)],
    ?_, rfl, rfl, rfl, rfl, ?_⟩
  · unfold main
    rw [hp, hg]
  · have h7 : ("/" ++ (toString (7 : Nat) ++ " checks passed")) = "/7 checks passed" := by
      decide
    rw [← h7]
    rfl

/-- Witness for C10 (amended) at a concrete all-passing state in which
neither fallible check raises. -/
theorem main_seven_checks_inst :
    ∃ r, main sampleState = Except.ok r ∧
      r.checks.map Prod.fst =
        ["Python Version", "System Info", "pip", "Virtual Environment",
         "Disk Space", "Internet", "GPU (Optional)"] ∧
      r.checks.length = 7 ∧
      r.total = 7 ∧
      r.summaryRows = r.checks.map (fun p => summaryRow p.1 p.2) ∧
      r.passedLine = toString r.passed ++ "/7 checks passed" :=
  main_seven_checks sampleState true true rfl rfl

end SetupEnv
